import Mathlib

/-!
Shallow embedding of the webwaka-ecommerce repository, covering:

* the TaxAndFee cell (`platforms/cells/inventory/TaxAndFee/src/server.ts`):
  `calculate`, `getRegionRates`, the processing-fee tier lookup, the
  item-type adjustment, and the hardcoded emergency fallbacks;
* the cells API route POST handler (`app/api/cells/[...cellPath]/route.ts`);
* the B2BAccessControl cell (`platforms/cells/ecommerce/B2BAccessControl/src/server.ts`):
  `checkUserCategoryAccess` and `removeUserFromB2BGroup`.

Monetary values are modelled over `ℚ`; JavaScript's
`parseFloat(x.toFixed(2))` becomes rounding to two decimal places.  The
relational store and the Redis cache are modelled as explicit environment
records, with availability flags so that lookup-layer failures (thrown
exceptions in the TypeScript) can be expressed; thrown errors are
`Except.error`, the TypeScript `try`/`catch` blocks become explicit
`match`es on the `Except` value.
-/

namespace WebWaka

/-- Rounding to two decimal places, modelling `parseFloat(x.toFixed(2))`
on the nonnegative monetary values of server.ts (round half up over `ℚ`). -/
def round2 (x : ℚ) : ℚ :=
  ((round (x * 100) : ℤ) : ℚ) / 100

/-- ASCII upper-casing of one character (the region codes fed to
`toUpperCase()` are ASCII). -/
def upcaseChar (c : Char) : Char :=
  if 'a' ≤ c ∧ c ≤ 'z' then Char.ofNat (c.toNat - 32) else c

/-- ASCII model of JavaScript `String.prototype.toUpperCase`. -/
def upcase (s : String) : String :=
  ⟨s.data.map upcaseChar⟩

/-- ASCII lower-casing of one character. -/
def downcaseChar (c : Char) : Char :=
  if 'A' ≤ c ∧ c ≤ 'Z' then Char.ofNat (c.toNat + 32) else c

/-- ASCII model of JavaScript `String.prototype.toLowerCase`. -/
def downcase (s : String) : String :=
  ⟨s.data.map downcaseChar⟩

/-- An active row of the `tax_region_multipliers` table
(`tax_multiplier`, `description`; the description column is nullable). -/
structure RegionRow where
  taxMultiplier : ℚ
  description : Option String
deriving Repr, DecidableEq

/-- The `{taxMultiplier, description}` object that `getRegionRates`
builds from a row and writes to the Redis cache. -/
structure RegionData where
  taxMultiplier : ℚ
  description : String
deriving Repr, DecidableEq

/-- The value returned by `getRegionRates`. -/
structure RegionRatesResult where
  taxMultiplier : ℚ
  description : String
  source : String
deriving Repr, DecidableEq

/-- A row of `fee_structure_tiers` as parsed by
`calculateProcessingFeeFromDatabase`: `maxAmount = none` models a SQL NULL
`max_amount` mapped to `Infinity`, `feePercentage = none` models a falsy
`fee_percentage` mapped to `null`. -/
structure FeeTier where
  minAmount : ℚ
  maxAmount : Option ℚ
  feeAmount : ℚ
  feePercentage : Option ℚ
deriving Repr, DecidableEq

/-- The relational store consulted by the TaxAndFee cell.  All lookups are
keyed by tenant first; `regionRow` is keyed by upper-cased region code and
`itemRow` by lower-cased item type code, matching the SQL parameters; only
`is_active = TRUE` rows are modelled, `regionDefault` / `itemDefault` are
the `is_default = TRUE` rows, and `feeTiers` is already ordered by
`tier_order` as in the query's ORDER BY. -/
structure TaxDb where
  regionRow : String → String → Option RegionRow
  regionDefault : String → Option RegionRow
  feeTiers : String → List FeeTier
  itemRow : String → String → Option ℚ
  itemDefault : String → Option ℚ

/-- Environment of a TaxAndFee call: the database, the three Redis cache
families (each entry paired with its expiry time), the clock, and
availability flags for the lookup layers.  A `false` flag makes the
corresponding primitive throw, modelling an unavailable store. -/
structure Env where
  db : TaxDb
  regionCache : String → String → Option (RegionData × ℕ)
  feeCache : String → Option (List FeeTier × ℕ)
  itemCache : String → String → Option (ℚ × ℕ)
  now : ℕ
  redisGetOk : Bool
  redisSetOk : Bool
  sqlOk : Bool

/-- The unexpired region-cache entry for a tenant and region, if any. -/
def regionCacheFresh (env : Env) (tenant region : String) : Option RegionData :=
  match env.regionCache tenant region with
  | some (d, exp) => if env.now < exp then some d else none
  | none => none

/-- `redis.get` on the region cache: throws when Redis is unavailable. -/
def redisGetRegion (env : Env) (tenant region : String) : Except Unit (Option RegionData) :=
  if env.redisGetOk then .ok (regionCacheFresh env tenant region) else .error ()

/-- The exact-match query on `tax_region_multipliers`
(`tenant_id = $1 AND region_code = $2 AND is_active = TRUE`). -/
def sqlRegionExact (env : Env) (tenant code : String) : Except Unit (Option RegionRow) :=
  if env.sqlOk then .ok (env.db.regionRow tenant code) else .error ()

/-- The default-row query on `tax_region_multipliers`
(`tenant_id = $1 AND is_default = TRUE AND is_active = TRUE`). -/
def sqlRegionDefault (env : Env) (tenant : String) : Except Unit (Option RegionRow) :=
  if env.sqlOk then .ok (env.db.regionDefault tenant) else .error ()

/-- The environment after writing a region-cache entry with a one-hour
expiry under the key `tax_regions:{tenantId}:{region}`. -/
def regionCacheInsert (env : Env) (tenant region : String) (d : RegionData) : Env :=
  { env with regionCache := fun t r =>
      if t = tenant ∧ r = region then some (d, env.now + 3600) else env.regionCache t r }

/-- `redis.setex(cacheKey, 3600, ...)` on the region cache key
`tax_regions:{tenantId}:{region}`: stores the data with a one-hour expiry. -/
def redisSetRegion (env : Env) (tenant region : String) (d : RegionData) : Except Unit Env :=
  if env.redisSetOk then .ok (regionCacheInsert env tenant region d) else .error ()

/-- Default description built by `getRegionRates` for an exact-match row
whose description column is NULL. -/
def regionDescDefault (region : String) : String :=
  "Regional tax adjustment for " ++ region

/-- Body of the `try` block of `getRegionRates` (server.ts lines 106-167):
cache lookup, then exact-match row (cached on hit), then default row, then
the constant 1.0; a thrown lookup error propagates out of the body. -/
def getRegionRatesTry (env : Env) (region tenant : String) :
    Except Unit (RegionRatesResult × Env) :=
  match redisGetRegion env tenant region with
  | .error e => .error e
  | .ok (some d) => .ok (⟨d.taxMultiplier, d.description, "database_cached"⟩, env)
  | .ok none =>
    match sqlRegionExact env tenant (upcase region) with
    | .error e => .error e
    | .ok (some r) =>
      let d : RegionData := ⟨r.taxMultiplier, r.description.getD (regionDescDefault region)⟩
      match redisSetRegion env tenant region d with
      | .error e => .error e
      | .ok env' => .ok (⟨d.taxMultiplier, d.description, "database"⟩, env')
    | .ok none =>
      match sqlRegionDefault env tenant with
      | .error e => .error e
      | .ok (some r) =>
        .ok (⟨r.taxMultiplier,
          r.description.getD "Default tax rate for unspecified regions",
          "database_default"⟩, env)
      | .ok none =>
        .ok (⟨1, "Emergency fallback rate - no database configuration found",
          "emergency_fallback"⟩, env)

/-- `getRegionRates` (server.ts lines 101-179): throws when `tenantId` is
falsy; otherwise runs the try body, and its catch turns any lookup error
into the 1.0 error fallback (leaving the environment unchanged). -/
def getRegionRates (env : Env) (region tenant : String) :
    Except String (RegionRatesResult × Env) :=
  if tenant = "" then .error "Tenant ID is required for region rate lookup"
  else
    match getRegionRatesTry env region tenant with
    | .ok v => .ok v
    | .error _ =>
      .ok (⟨1, "Emergency fallback rate due to database error", "error_fallback"⟩, env)

/-- `getRegionTaxMultiplier` (server.ts lines 231-239): projects the
multiplier out of `getRegionRates` and maps any thrown error to 1.0. -/
def getRegionTaxMultiplier (env : Env) (region tenant : String) : ℚ × Env :=
  match getRegionRates env region tenant with
  | .ok (r, env') => (r.taxMultiplier, env')
  | .error _ => (1, env)

/-- The predicate `amount >= tier.minAmount && amount < tier.maxAmount`
used by the tier search (a NULL `maxAmount` is `Infinity`, so that bound
always holds). -/
def tierMatches (amount : ℚ) (t : FeeTier) : Bool :=
  decide (t.minAmount ≤ amount) &&
    (match t.maxAmount with
     | some m => decide (amount < m)
     | none => true)

/-- Fee selection from a tier list (server.ts lines 279-295): the first
tier in list order whose range contains the amount wins; its percentage is
used only when it is truthy and positive (`tier.feePercentage &&
tier.feePercentage > 0`), otherwise the flat `feeAmount`; when no tier
matches, the last tier's flat fee, or 5.00 for an empty list. -/
def feeFromTiers (tiers : List FeeTier) (amount : ℚ) : ℚ :=
  match tiers.find? (tierMatches amount) with
  | some t =>
    match t.feePercentage with
    | some p => if 0 < p then amount * p else t.feeAmount
    | none => t.feeAmount
  | none =>
    match tiers.getLast? with
    | some t => t.feeAmount
    | none => 5

/-- `calculateProcessingFeeHardcodedFallback` (server.ts lines 395-401). -/
def calculateProcessingFeeHardcodedFallback (amount : ℚ) : ℚ :=
  if amount < 50 then 1.25
  else if amount < 100 then 2
  else if amount < 500 then 2.5
  else 5

/-- The unexpired fee-tier cache entry for a tenant, if any. -/
def feeCacheFresh (env : Env) (tenant : String) : Option (List FeeTier) :=
  match env.feeCache tenant with
  | some (ts, exp) => if env.now < exp then some ts else none
  | none => none

/-- `redis.get` on the fee-tier cache key `fee_tiers:{tenantId}`. -/
def redisGetFee (env : Env) (tenant : String) : Except Unit (Option (List FeeTier)) :=
  if env.redisGetOk then .ok (feeCacheFresh env tenant) else .error ()

/-- The `fee_structure_tiers` query (`tenant_id = $1 AND is_active = TRUE
ORDER BY tier_order`). -/
def sqlFeeTiers (env : Env) (tenant : String) : Except Unit (List FeeTier) :=
  if env.sqlOk then .ok (env.db.feeTiers tenant) else .error ()

/-- The environment after writing a fee-tier cache entry (one-hour expiry). -/
def feeCacheInsert (env : Env) (tenant : String) (ts : List FeeTier) : Env :=
  { env with feeCache := fun t =>
      if t = tenant then some (ts, env.now + 3600) else env.feeCache t }

/-- `redis.setex` on the fee-tier cache (one-hour expiry). -/
def redisSetFee (env : Env) (tenant : String) (ts : List FeeTier) : Except Unit Env :=
  if env.redisSetOk then .ok (feeCacheInsert env tenant ts) else .error ()

/-- Body of the `try` block of `calculateProcessingFeeFromDatabase`
(server.ts lines 245-295): cached tiers, else the database tiers (throwing
`No fee structure configuration found` on an empty result, then caching),
then the tier search. -/
def calculateProcessingFeeTry (env : Env) (amount : ℚ) (tenant : String) :
    Except Unit (ℚ × Env) :=
  match redisGetFee env tenant with
  | .error e => .error e
  | .ok (some tiers) => .ok (feeFromTiers tiers amount, env)
  | .ok none =>
    match sqlFeeTiers env tenant with
    | .error e => .error e
    | .ok rows =>
      if rows = [] then .error ()
      else
        match redisSetFee env tenant rows with
        | .error e => .error e
        | .ok env' => .ok (feeFromTiers rows amount, env')

/-- `calculateProcessingFeeFromDatabase` (server.ts lines 244-303): the try
body with its catch falling back to the hardcoded fee tiers. -/
def calculateProcessingFeeFromDatabase (env : Env) (amount : ℚ) (tenant : String) :
    ℚ × Env :=
  match calculateProcessingFeeTry env amount tenant with
  | .ok v => v
  | .error _ => (calculateProcessingFeeHardcodedFallback amount, env)

/-- The unexpired item-adjustment cache entry, if any. -/
def itemCacheFresh (env : Env) (tenant item : String) : Option ℚ :=
  match env.itemCache tenant item with
  | some (v, exp) => if env.now < exp then some v else none
  | none => none

/-- `redis.get` on the item-adjustment cache key
`item_adjustments:{tenantId}:{itemType}`. -/
def redisGetItem (env : Env) (tenant item : String) : Except Unit (Option ℚ) :=
  if env.redisGetOk then .ok (itemCacheFresh env tenant item) else .error ()

/-- The exact-match query on `item_type_tax_adjustments`. -/
def sqlItemExact (env : Env) (tenant code : String) : Except Unit (Option ℚ) :=
  if env.sqlOk then .ok (env.db.itemRow tenant code) else .error ()

/-- The default-row query on `item_type_tax_adjustments`. -/
def sqlItemDefault (env : Env) (tenant : String) : Except Unit (Option ℚ) :=
  if env.sqlOk then .ok (env.db.itemDefault tenant) else .error ()

/-- The environment after writing an item-adjustment cache entry
(one-hour expiry). -/
def itemCacheInsert (env : Env) (tenant item : String) (v : ℚ) : Env :=
  { env with itemCache := fun t i =>
      if t = tenant ∧ i = item then some (v, env.now + 3600) else env.itemCache t i }

/-- `redis.setex` on the item-adjustment cache (one-hour expiry). -/
def redisSetItem (env : Env) (tenant item : String) (v : ℚ) : Except Unit Env :=
  if env.redisSetOk then .ok (itemCacheInsert env tenant item v) else .error ()

/-- The hardcoded `adjustments` record of
`getItemTypeAdjustmentHardcodedFallback` (server.ts lines 408-414). -/
def itemAdjustments (itemType : String) : Option ℚ :=
  if itemType = "food" then some 0.5
  else if itemType = "medical" then some 0
  else if itemType = "luxury" then some 1.2
  else if itemType = "digital" then some 0.8
  else if itemType = "general" then some 1
  else none

/-- `getItemTypeAdjustmentHardcodedFallback` (server.ts lines 406-417):
`adjustments[itemType] || 1.0` — note that the 0.0 entry for `medical` is
falsy in JavaScript, so it yields 1.0. -/
def getItemTypeAdjustmentHardcodedFallback (itemType : String) : ℚ :=
  match itemAdjustments itemType with
  | some v => if v = 0 then 1 else v
  | none => 1

/-- Body of the `try` block of `getItemTypeAdjustmentFromDatabase`
(server.ts lines 309-351): cache, else exact row (then cached), else
default row, else 1.0. -/
def getItemTypeAdjustmentTry (env : Env) (item tenant : String) : Except Unit (ℚ × Env) :=
  match redisGetItem env tenant item with
  | .error e => .error e
  | .ok (some v) => .ok (v, env)
  | .ok none =>
    match sqlItemExact env tenant (downcase item) with
    | .error e => .error e
    | .ok (some adj) =>
      match redisSetItem env tenant item adj with
      | .error e => .error e
      | .ok env' => .ok (adj, env')
    | .ok none =>
      match sqlItemDefault env tenant with
      | .error e => .error e
      | .ok (some adj) => .ok (adj, env)
      | .ok none => .ok (1, env)

/-- `getItemTypeAdjustmentFromDatabase` (server.ts lines 308-359): the try
body with its catch falling back to the hardcoded adjustments. -/
def getItemTypeAdjustmentFromDatabase (env : Env) (item tenant : String) : ℚ × Env :=
  match getItemTypeAdjustmentTry env item tenant with
  | .ok v => v
  | .error _ => (getItemTypeAdjustmentHardcodedFallback item, env)

/-- `TaxCalculationInput` (server.ts lines 7-13); the optional `region` and
`itemType` fields default to `'default'` and `'general'` in `calculate`. -/
structure TaxCalculationInput where
  amount : ℚ
  taxRate : ℚ
  region : Option String
  itemType : Option String
  tenantId : String
deriving Repr, DecidableEq

/-- The `breakdown` object of `TaxCalculationResult`. -/
structure TaxBreakdown where
  baseTax : ℚ
  regionTax : ℚ
  processingFee : ℚ
deriving Repr, DecidableEq

/-- `TaxCalculationResult` (server.ts lines 15-26). -/
structure TaxCalculationResult where
  subtotal : ℚ
  tax : ℚ
  fees : ℚ
  total : ℚ
  breakdown : TaxBreakdown
  configurationSource : String
deriving Repr, DecidableEq

/-- The body of the `try` block of `calculate` (server.ts lines 58-88).
It cannot throw: `getRegionTaxMultiplier`, `calculateProcessingFeeFromDatabase`
and `getItemTypeAdjustmentFromDatabase` each catch all of their own lookup
errors, and the remaining operations are arithmetic, so this is a total
function and the catch at line 90 (the emergency fallback) is unreachable. -/
def calculateCore (env : Env) (input : TaxCalculationInput) :
    TaxCalculationResult × Env :=
  let amount := input.amount
  let region := input.region.getD "default"
  let itemType := input.itemType.getD "general"
  let baseTax := amount * input.taxRate
  let rm := getRegionTaxMultiplier env region input.tenantId
  let regionTax := baseTax * (rm.1 - 1)
  let pf := calculateProcessingFeeFromDatabase rm.2 amount input.tenantId
  let ia := getItemTypeAdjustmentFromDatabase pf.2 itemType input.tenantId
  let adjustedTax := (baseTax + regionTax) * ia.1
  let tax := round2 adjustedTax
  let fees := round2 pf.1
  let total := round2 (amount + tax + fees)
  ({ subtotal := amount, tax := tax, fees := fees, total := total,
     breakdown := ⟨round2 baseTax, round2 regionTax, round2 pf.1⟩,
     configurationSource := "database" }, ia.2)

/-- `TaxAndFeeCell.calculate` (server.ts lines 42-96): the three input
validations throw before any lookup; afterwards the try body always
completes (see `calculateCore`). -/
def calculate (env : Env) (input : TaxCalculationInput) :
    Except String (TaxCalculationResult × Env) :=
  if input.amount < 0 then .error "Amount must be non-negative"
  else if input.taxRate < 0 ∨ 1 < input.taxRate then
    .error "Tax rate must be between 0 and 1"
  else if input.tenantId = "" then
    .error "Tenant ID is required for multi-tenant tax calculations"
  else .ok (calculateCore env input)

/-- `calculateWithEmergencyFallback` (server.ts lines 365-390): base tax
only, zero region tax, hardcoded processing fee, source
`fallback_hardcoded`. -/
def calculateWithEmergencyFallback (input : TaxCalculationInput) : TaxCalculationResult :=
  let baseTax := input.amount * input.taxRate
  let processingFee := calculateProcessingFeeHardcodedFallback input.amount
  let tax := round2 baseTax
  let fees := round2 processingFee
  let total := round2 (input.amount + tax + fees)
  { subtotal := input.amount, tax := tax, fees := fees, total := total,
    breakdown := ⟨tax, 0, fees⟩, configurationSource := "fallback_hardcoded" }

/-- Projection of a `calculate` outcome to its result record (dropping the
environment, whose function-valued fields have no decidable equality). -/
def calcOutcome (e : Except String (TaxCalculationResult × Env)) :
    Option TaxCalculationResult :=
  match e with
  | .ok (r, _) => some r
  | .error _ => none

/-- An environment whose configuration tables and caches are all empty and
whose database and cache layers are available. -/
def envEmpty : Env where
  db :=
    { regionRow := fun _ _ => none
      regionDefault := fun _ => none
      feeTiers := fun _ => []
      itemRow := fun _ _ => none
      itemDefault := fun _ => none }
  regionCache := fun _ _ => none
  feeCache := fun _ => none
  itemCache := fun _ _ => none
  now := 0
  redisGetOk := true
  redisSetOk := true
  sqlOk := true

/-- No configuration rows exist in any of the three configuration tables
and no cache entries exist, for any tenant. -/
def Env.noConfig (env : Env) : Prop :=
  (∀ t c, env.db.regionRow t c = none) ∧
  (∀ t, env.db.regionDefault t = none) ∧
  (∀ t, env.db.feeTiers t = []) ∧
  (∀ t c, env.db.itemRow t c = none) ∧
  (∀ t, env.db.itemDefault t = none) ∧
  (∀ t r, env.regionCache t r = none) ∧
  (∀ t, env.feeCache t = none) ∧
  (∀ t i, env.itemCache t i = none)

/-- The database and cache layers are all available. -/
def Env.allOk (env : Env) : Prop :=
  env.redisGetOk = true ∧ env.redisSetOk = true ∧ env.sqlOk = true

/-- An environment in which every lookup fails: both the Redis layer and
the SQL layer are unavailable. -/
def envAllFail : Env :=
  { envEmpty with redisGetOk := false, redisSetOk := false, sqlOk := false }

/-- The spec's worked example input:
`calculate(1000, 0.075, "NG", "product", "t1")`. -/
def inputExample : TaxCalculationInput :=
  ⟨1000, 0.075, some "NG", some "product", "t1"⟩

section TaxAndFeeLemmas

/-- `round2` is the identity on rationals with at most two decimal places. -/
theorem round2_eq_self (x : ℚ) (k : ℤ) (h : x * 100 = (k : ℚ)) : round2 x = x := by
  have h100 : (100 : ℚ) ≠ 0 := by norm_num
  unfold round2
  rw [h, round_intCast]
  rw [eq_comm, eq_div_iff h100, ← h]

/-- Two-decimal rounding always produces a rational with at most two
decimal places. -/
theorem round2_mul_100_int (x : ℚ) : ∃ k : ℤ, round2 x * 100 = (k : ℚ) := by
  refine ⟨round (x * 100), ?_⟩
  unfold round2
  field_simp

theorem redisGetRegion_avail (env : Env) (tenant region : String)
    (h : env.redisGetOk = true) :
    redisGetRegion env tenant region = .ok (regionCacheFresh env tenant region) := by
  simp [redisGetRegion, h]

theorem getRegionRatesTry_cached (env : Env) (region tenant : String) (d : RegionData)
    (hg : env.redisGetOk = true)
    (hc : regionCacheFresh env tenant region = some d) :
    getRegionRatesTry env region tenant =
      .ok (⟨d.taxMultiplier, d.description, "database_cached"⟩, env) := by
  unfold getRegionRatesTry
  rw [redisGetRegion_avail env tenant region hg, hc]

theorem getRegionRatesTry_stored (env : Env) (region tenant : String) (row : RegionRow)
    (hg : env.redisGetOk = true) (hs : env.redisSetOk = true) (hq : env.sqlOk = true)
    (hc : regionCacheFresh env tenant region = none)
    (hrow : env.db.regionRow tenant (upcase region) = some row) :
    getRegionRatesTry env region tenant =
      .ok (⟨row.taxMultiplier, row.description.getD (regionDescDefault region), "database"⟩,
        regionCacheInsert env tenant region
          ⟨row.taxMultiplier, row.description.getD (regionDescDefault region)⟩) := by
  unfold getRegionRatesTry
  rw [redisGetRegion_avail env tenant region hg, hc]
  simp [sqlRegionExact, hq, hrow, redisSetRegion, hs]

theorem getRegionRatesTry_default (env : Env) (region tenant : String) (row : RegionRow)
    (hg : env.redisGetOk = true) (hq : env.sqlOk = true)
    (hc : regionCacheFresh env tenant region = none)
    (hrow : env.db.regionRow tenant (upcase region) = none)
    (hdef : env.db.regionDefault tenant = some row) :
    getRegionRatesTry env region tenant =
      .ok (⟨row.taxMultiplier,
        row.description.getD "Default tax rate for unspecified regions",
        "database_default"⟩, env) := by
  unfold getRegionRatesTry
  rw [redisGetRegion_avail env tenant region hg, hc]
  simp [sqlRegionExact, hq, hrow, sqlRegionDefault, hdef]

theorem getRegionRatesTry_const (env : Env) (region tenant : String)
    (hg : env.redisGetOk = true) (hq : env.sqlOk = true)
    (hc : regionCacheFresh env tenant region = none)
    (hrow : env.db.regionRow tenant (upcase region) = none)
    (hdef : env.db.regionDefault tenant = none) :
    getRegionRatesTry env region tenant =
      .ok (⟨1, "Emergency fallback rate - no database configuration found",
        "emergency_fallback"⟩, env) := by
  unfold getRegionRatesTry
  rw [redisGetRegion_avail env tenant region hg, hc]
  simp [sqlRegionExact, hq, hrow, sqlRegionDefault, hdef]

theorem getRegionRatesTry_redisDown (env : Env) (region tenant : String)
    (hg : env.redisGetOk = false) :
    getRegionRatesTry env region tenant = .error () := by
  unfold getRegionRatesTry
  simp [redisGetRegion, hg]

theorem getRegionRatesTry_sqlDown (env : Env) (region tenant : String)
    (hg : env.redisGetOk = true) (hq : env.sqlOk = false)
    (hc : regionCacheFresh env tenant region = none) :
    getRegionRatesTry env region tenant = .error () := by
  unfold getRegionRatesTry
  rw [redisGetRegion_avail env tenant region hg, hc]
  simp [sqlRegionExact, hq]

theorem getRegionRatesTry_setexDown (env : Env) (region tenant : String) (row : RegionRow)
    (hg : env.redisGetOk = true) (hs : env.redisSetOk = false) (hq : env.sqlOk = true)
    (hc : regionCacheFresh env tenant region = none)
    (hrow : env.db.regionRow tenant (upcase region) = some row) :
    getRegionRatesTry env region tenant = .error () := by
  unfold getRegionRatesTry
  rw [redisGetRegion_avail env tenant region hg, hc]
  simp [sqlRegionExact, hq, hrow, redisSetRegion, hs]

theorem getRegionRates_of_try_ok (env : Env) (region tenant : String)
    (v : RegionRatesResult × Env) (ht : tenant ≠ "")
    (h : getRegionRatesTry env region tenant = .ok v) :
    getRegionRates env region tenant = .ok v := by
  unfold getRegionRates
  rw [if_neg ht, h]

theorem getRegionRates_of_try_err (env : Env) (region tenant : String) (ht : tenant ≠ "")
    (h : getRegionRatesTry env region tenant = .error ()) :
    getRegionRates env region tenant =
      .ok (⟨1, "Emergency fallback rate due to database error", "error_fallback"⟩, env) := by
  unfold getRegionRates
  rw [if_neg ht, h]

theorem calculateProcessingFee_noConfig (env : Env) (amount : ℚ) (tenant : String)
    (hg : env.redisGetOk = true) (hq : env.sqlOk = true)
    (hc : feeCacheFresh env tenant = none)
    (hrows : env.db.feeTiers tenant = []) :
    calculateProcessingFeeFromDatabase env amount tenant =
      (calculateProcessingFeeHardcodedFallback amount, env) := by
  unfold calculateProcessingFeeFromDatabase calculateProcessingFeeTry
  simp [redisGetFee, hg, hc, sqlFeeTiers, hq, hrows]

theorem calculateProcessingFee_redisDown (env : Env) (amount : ℚ) (tenant : String)
    (hg : env.redisGetOk = false) :
    calculateProcessingFeeFromDatabase env amount tenant =
      (calculateProcessingFeeHardcodedFallback amount, env) := by
  unfold calculateProcessingFeeFromDatabase calculateProcessingFeeTry
  simp [redisGetFee, hg]

theorem getItemTypeAdjustment_noConfig (env : Env) (item tenant : String)
    (hg : env.redisGetOk = true) (hq : env.sqlOk = true)
    (hc : itemCacheFresh env tenant item = none)
    (hrow : env.db.itemRow tenant (downcase item) = none)
    (hdef : env.db.itemDefault tenant = none) :
    getItemTypeAdjustmentFromDatabase env item tenant = (1, env) := by
  unfold getItemTypeAdjustmentFromDatabase getItemTypeAdjustmentTry
  simp [redisGetItem, hg, hc, sqlItemExact, hq, hrow, sqlItemDefault, hdef]

theorem getItemTypeAdjustment_redisDown (env : Env) (item tenant : String)
    (hg : env.redisGetOk = false) :
    getItemTypeAdjustmentFromDatabase env item tenant =
      (getItemTypeAdjustmentHardcodedFallback item, env) := by
  unfold getItemTypeAdjustmentFromDatabase getItemTypeAdjustmentTry
  simp [redisGetItem, hg]

theorem calculate_valid_eq_core (env : Env) (input : TaxCalculationInput)
    (h0 : 0 ≤ input.amount) (h1 : 0 ≤ input.taxRate) (h2 : input.taxRate ≤ 1)
    (h3 : input.tenantId ≠ "") :
    calculate env input = .ok (calculateCore env input) := by
  unfold calculate
  rw [if_neg (not_lt.2 h0), if_neg (by simp [not_or, not_lt, h1, h2]), if_neg h3]

end TaxAndFeeLemmas

section TaxAndFeeClaims

/-- C4: `calculate` fails with a validation error, and consults no part of
the environment, exactly when the amount is negative, the tax rate lies
outside the interval from 0 to 1, or the tenant id is absent (falsy); for
all other inputs the three checks pass and no validation error is raised. -/
theorem calculate_invalid_iff (env : Env) (input : TaxCalculationInput) :
    ((∃ e, calculate env input = .error e) ↔
      (input.amount < 0 ∨ input.taxRate < 0 ∨ 1 < input.taxRate ∨ input.tenantId = "")) ∧
    ((input.amount < 0 ∨ input.taxRate < 0 ∨ 1 < input.taxRate ∨ input.tenantId = "") →
      ∀ env2 : Env, calculate env input = calculate env2 input) := by
  constructor
  · constructor
    · rintro ⟨e, he⟩
      by_contra h
      push_neg at h
      obtain ⟨hA, hB, hC, hD⟩ := h
      unfold calculate at he
      rw [if_neg (not_lt.2 hA), if_neg (by simp [not_or, not_lt, hB, hC]),
        if_neg hD] at he
      exact absurd he (by simp)
    · intro h
      unfold calculate
      split_ifs with hA hB hC
      · exact ⟨_, rfl⟩
      · exact ⟨_, rfl⟩
      · exact ⟨_, rfl⟩
      · rcases h with h | h | h | h
        · exact absurd h hA
        · exact absurd (Or.inl h) hB
        · exact absurd (Or.inr h) hB
        · exact absurd h hC
  · intro h env2
    unfold calculate
    split_ifs with hA hB hC
    · rfl
    · rfl
    · rfl
    · rcases h with h | h | h | h
      · exact absurd h hA
      · exact absurd (Or.inl h) hB
      · exact absurd (Or.inr h) hB
      · exact absurd h hC

/-- Witness for C4: a negative amount is rejected with a validation
error. -/
theorem calculate_invalid_iff_witness :
    ((-1 : ℚ) < 0 ∨ (0.075 : ℚ) < 0 ∨ 1 < (0.075 : ℚ) ∨ ("t1" : String) = "") ∧
    (∃ e, calculate envEmpty ⟨-1, 0.075, none, none, "t1"⟩ = .error e) := by
  refine ⟨Or.inl (by norm_num), ?_⟩
  exact (calculate_invalid_iff envEmpty ⟨-1, 0.075, none, none, "t1"⟩).1.mpr
    (Or.inl (by norm_num))

/-- C1 (counterexample): on the spec's worked example with no stored
configuration at all, the code returns total 1080 (tax 75 plus the
hardcoded fallback fee 5), not the claimed 1075. -/
theorem calculate_example_claim_false :
    calcOutcome (calculate envEmpty inputExample) =
      some { subtotal := 1000, tax := 75, fees := 5, total := 1080,
             breakdown := ⟨75, 0, 5⟩, configurationSource := "database" } ∧
    (1080 : ℚ) ≠ 1075 := by
  constructor
  · with_unfolding_all rfl
  · norm_num

/-- C1 (amended): for every environment with no configuration rows and no
cache entries but available stores, the worked example yields tax 75,
fees 5 (the hardcoded fee fallback, since the empty fee-tier query throws)
and total 1080. -/
theorem calculate_example_no_config (env : Env) (hc : env.noConfig) (ho : env.allOk) :
    calcOutcome (calculate env inputExample) =
      some { subtotal := 1000, tax := 75, fees := 5, total := 1080,
             breakdown := ⟨75, 0, 5⟩, configurationSource := "database" } := by
  obtain ⟨h1, h2, h3, h4, h5, h6, h7, h8⟩ := hc
  obtain ⟨g1, g2, g3⟩ := ho
  rw [calculate_valid_eq_core env inputExample (by norm_num [inputExample])
    (by norm_num [inputExample]) (by norm_num [inputExample]) (by simp [inputExample])]
  have hregion : getRegionTaxMultiplier env "NG" "t1" = (1, env) := by
    unfold getRegionTaxMultiplier
    rw [getRegionRates_of_try_ok env "NG" "t1" _ (by simp)
      (getRegionRatesTry_const env "NG" "t1" g1 g3
        (by simp [regionCacheFresh, h6]) (h1 _ _) (h2 _))]
  have hfee : calculateProcessingFeeFromDatabase env 1000 "t1" =
      (calculateProcessingFeeHardcodedFallback 1000, env) :=
    calculateProcessingFee_noConfig env 1000 "t1" g1 g3 (by simp [feeCacheFresh, h7]) (h3 _)
  have hitem : getItemTypeAdjustmentFromDatabase env "product" "t1" = (1, env) :=
    getItemTypeAdjustment_noConfig env "product" "t1" g1 g3
      (by simp [itemCacheFresh, h8]) (h4 _ _) (h5 _)
  unfold calculateCore calcOutcome
  simp only [inputExample, Option.getD_some]
  rw [hregion]
  simp only
  rw [hfee]
  simp only
  rw [hitem]
  simp only
  norm_num [calculateProcessingFeeHardcodedFallback]
  all_goals simp only [round2_eq_self 75 7500 (by norm_num),
    round2_eq_self 5 500 (by norm_num), round2_eq_self 0 0 (by norm_num),
    show (1000 : ℚ) + 75 + 5 = 1080 from by norm_num,
    round2_eq_self 1080 108000 (by norm_num)]
  all_goals simp

/-- Witness for the amended C1 at the concrete empty environment. -/
theorem calculate_example_no_config_witness :
    envEmpty.noConfig ∧ envEmpty.allOk ∧
    calcOutcome (calculate envEmpty inputExample) =
      some { subtotal := 1000, tax := 75, fees := 5, total := 1080,
             breakdown := ⟨75, 0, 5⟩, configurationSource := "database" } := by
  have hc : envEmpty.noConfig :=
    ⟨fun _ _ => rfl, fun _ => rfl, fun _ => rfl, fun _ _ => rfl,
     fun _ => rfl, fun _ _ => rfl, fun _ => rfl, fun _ _ => rfl⟩
  have ho : envEmpty.allOk := ⟨rfl, rfl, rfl⟩
  exact ⟨hc, ho, calculate_example_no_config envEmpty hc ho⟩

end TaxAndFeeClaims

section TaxAndFeeClaims2

/-- C3: when the configuration store fails on every lookup, `calculate`
does not recompute from the base rate only and does not flag the result as
the emergency fallback: each helper swallows its own failure, so the
result still applies the hardcoded item-type adjustment (here 0.5 for
`food`, giving tax 5 instead of the base tax 10) and keeps configuration
source `database`, diverging from `calculateWithEmergencyFallback`. -/
theorem calculate_total_failure_not_emergency :
    calcOutcome (calculate envAllFail ⟨100, 0.1, some "NG", some "food", "t1"⟩) =
      some { subtotal := 100, tax := 5, fees := 5/2, total := 215/2,
             breakdown := ⟨10, 0, 5/2⟩, configurationSource := "database" } ∧
    calculateWithEmergencyFallback ⟨100, 0.1, some "NG", some "food", "t1"⟩ =
      { subtotal := 100, tax := 10, fees := 5/2, total := 225/2,
        breakdown := ⟨10, 0, 5/2⟩, configurationSource := "fallback_hardcoded" } ∧
    (5 : ℚ) ≠ 10 ∧ ("database" : String) ≠ "fallback_hardcoded" := by
  refine ⟨?_, ?_, by norm_num, by decide⟩
  · with_unfolding_all rfl
  · with_unfolding_all rfl

/-- C5 (counterexample): for an amount with more than two decimal places
(here 0.005 with tax rate 0), the returned total is the rounded sum
1.26, which differs from `amount + tax + fees = 1.255`. -/
theorem calculate_total_round_counterexample :
    calcOutcome (calculate envEmpty ⟨1/200, 0, none, none, "t1"⟩) =
      some { subtotal := 1/200, tax := 0, fees := 5/4, total := 63/50,
             breakdown := ⟨0, 0, 5/4⟩, configurationSource := "database" } ∧
    (63/50 : ℚ) ≠ 1/200 + (0 + 5/4) := by
  constructor
  · with_unfolding_all rfl
  · norm_num

/-- Sum of a two-decimal quantity and two freshly rounded quantities is
unchanged by a further two-decimal rounding. -/
theorem round2_sum_fixed (a : ℚ) (k : ℤ) (ha : a * 100 = (k : ℚ)) (x y : ℚ) :
    round2 (a + round2 x + round2 y) = a + round2 x + round2 y := by
  obtain ⟨k1, h1⟩ := round2_mul_100_int x
  obtain ⟨k2, h2⟩ := round2_mul_100_int y
  refine round2_eq_self _ (k + k1 + k2) ?_
  rw [add_mul, add_mul, ha, h1, h2]
  push_cast
  ring

/-- C5 (amended): for every valid input whose amount has at most two
decimal places, the result of `calculate` satisfies
`total = subtotal + tax + fees` exactly, where `tax` and `fees` are the
rounded values returned in the same result. -/
theorem calculate_total_exact (env : Env) (input : TaxCalculationInput)
    (h0 : 0 ≤ input.amount) (h1 : 0 ≤ input.taxRate) (h2 : input.taxRate ≤ 1)
    (h3 : input.tenantId ≠ "") (k : ℤ) (hk : input.amount * 100 = (k : ℚ)) :
    ∃ r env2, calculate env input = .ok (r, env2) ∧
      r.subtotal = input.amount ∧ r.total = r.subtotal + r.tax + r.fees := by
  refine ⟨(calculateCore env input).1, (calculateCore env input).2,
    by rw [calculate_valid_eq_core env input h0 h1 h2 h3], rfl, ?_⟩
  show round2 (input.amount + round2 _ + round2 _) = _
  rw [round2_sum_fixed input.amount k hk]
  rfl

/-- Witness for the amended C5 at the worked example input. -/
theorem calculate_total_exact_witness :
    (0 : ℚ) ≤ inputExample.amount ∧ inputExample.amount * 100 = ((100000 : ℤ) : ℚ) ∧
    ∃ r env2, calculate envEmpty inputExample = .ok (r, env2) ∧
      r.subtotal = inputExample.amount ∧ r.total = r.subtotal + r.tax + r.fees := by
  refine ⟨by norm_num [inputExample], by norm_num [inputExample], ?_⟩
  exact calculate_total_exact envEmpty inputExample (by norm_num [inputExample])
    (by norm_num [inputExample]) (by norm_num [inputExample])
    (by simp [inputExample]) 100000 (by norm_num [inputExample])

/-- A `find?` that is satisfied first at index `i` returns the element at
`i`. -/
theorem find_eq_get_of_first {α : Type} (p : α → Bool) (l : List α) (i : ℕ)
    (hi : i < l.length) (hp : p (l.get ⟨i, hi⟩) = true)
    (hfirst : ∀ j (hj : j < i), p (l.get ⟨j, Nat.lt_trans hj hi⟩) = false) :
    l.find? p = some (l.get ⟨i, hi⟩) := by
  induction l generalizing i with
  | nil => simp at hi
  | cons a t ih =>
    cases i with
    | zero =>
      simp only [List.get] at hp
      simp [List.find?_cons, hp]
    | succ j =>
      have h0 : p a = false := by
        have := hfirst 0 (Nat.succ_pos j)
        simpa [List.get] using this
      have hj : j < t.length := Nat.lt_of_succ_lt_succ hi
      have hp2 : p (t.get ⟨j, hj⟩) = true := by simpa [List.get] using hp
      have hf2 : ∀ m (hm : m < j), p (t.get ⟨m, Nat.lt_trans hm hj⟩) = false := by
        intro m hm
        have := hfirst (m + 1) (Nat.succ_lt_succ hm)
        simpa [List.get] using this
      have := ih j hj hp2 hf2
      simp [List.find?_cons, h0, this, List.get]

/-- C6 (counterexample): a tier whose stored percentage is zero is treated
as having no percentage: the flat fee 3 is charged rather than the claimed
`amount * percentage = 0`. -/
theorem feeFromTiers_zero_percentage :
    feeFromTiers [⟨0, none, 3, some 0⟩] 10 = 3 ∧ (3 : ℚ) ≠ 10 * 0 := by
  constructor
  · with_unfolding_all rfl
  · norm_num

/-- C6 (amended): for a non-empty tier list and an amount at least 0, the
processing fee is determined by the first tier in stored order whose range
contains the amount; the fee is `amount * percentage` when the percentage
is defined and positive, else the tier's flat fee amount. -/
theorem feeFromTiers_first_match (tiers : List FeeTier) (amount : ℚ) (i : ℕ)
    (hne : tiers ≠ []) (h0 : 0 ≤ amount) (hi : i < tiers.length)
    (hmatch : tierMatches amount (tiers.get ⟨i, hi⟩) = true)
    (hfirst : ∀ j (hj : j < i),
      tierMatches amount (tiers.get ⟨j, Nat.lt_trans hj hi⟩) = false) :
    feeFromTiers tiers amount =
      match (tiers.get ⟨i, hi⟩).feePercentage with
      | some p => if 0 < p then amount * p else (tiers.get ⟨i, hi⟩).feeAmount
      | none => (tiers.get ⟨i, hi⟩).feeAmount := by
  unfold feeFromTiers
  rw [find_eq_get_of_first (tierMatches amount) tiers i hi hmatch hfirst]

/-- A two-tier demonstration fee structure: a flat 1.25 below 50, then a
2 percent fee from 50 upward. -/
def demoTiers : List FeeTier :=
  [⟨0, some 50, 1.25, none⟩, ⟨50, none, 2, some 0.02⟩]

/-- Witness for the amended C6: on the demonstration tiers, an amount of
100 falls in the second tier and is charged its positive percentage. -/
theorem feeFromTiers_first_match_witness :
    demoTiers ≠ [] ∧ feeFromTiers demoTiers 100 = 100 * 0.02 := by
  refine ⟨by simp [demoTiers], ?_⟩
  have h := feeFromTiers_first_match demoTiers 100 1 (by simp [demoTiers])
    (by norm_num) (by simp [demoTiers])
    (of_decide_eq_true (by with_unfolding_all rfl))
    (fun j hj => by
      have hj0 : j = 0 := by omega
      subst hj0
      exact of_decide_eq_true (by with_unfolding_all rfl))
  rw [h]
  norm_num [demoTiers]

end TaxAndFeeClaims2

section TaxAndFeeClaims3

/-- C2: for every non-empty tenant id and region, `getRegionRates` always
returns a value (it never propagates a lookup failure): a fresh cache
entry with source `database_cached`, else the tenant-scoped exact-match
row with source `database`, else the tenant default row with source
`database_default`, else the constant 1.0 with source
`emergency_fallback`; and when the lookup layer itself fails (Redis down,
SQL down on a cache miss, or the cache write failing after an exact
match), it returns 1.0 with source `error_fallback` instead of throwing. -/
theorem getRegionRates_resolution (env : Env) (region tenant : String)
    (ht : tenant ≠ "") :
    (∃ v, getRegionRates env region tenant = .ok v) ∧
    (∀ d : RegionData, env.redisGetOk = true →
      regionCacheFresh env tenant region = some d →
      getRegionRates env region tenant =
        .ok (⟨d.taxMultiplier, d.description, "database_cached"⟩, env)) ∧
    (∀ row : RegionRow, env.redisGetOk = true → env.redisSetOk = true →
      env.sqlOk = true →
      regionCacheFresh env tenant region = none →
      env.db.regionRow tenant (upcase region) = some row →
      ∃ env2, getRegionRates env region tenant =
        .ok (⟨row.taxMultiplier, row.description.getD (regionDescDefault region),
          "database"⟩, env2)) ∧
    (∀ row : RegionRow, env.redisGetOk = true → env.sqlOk = true →
      regionCacheFresh env tenant region = none →
      env.db.regionRow tenant (upcase region) = none →
      env.db.regionDefault tenant = some row →
      getRegionRates env region tenant =
        .ok (⟨row.taxMultiplier,
          row.description.getD "Default tax rate for unspecified regions",
          "database_default"⟩, env)) ∧
    (env.redisGetOk = true → env.sqlOk = true →
      regionCacheFresh env tenant region = none →
      env.db.regionRow tenant (upcase region) = none →
      env.db.regionDefault tenant = none →
      getRegionRates env region tenant =
        .ok (⟨1, "Emergency fallback rate - no database configuration found",
          "emergency_fallback"⟩, env)) ∧
    (env.redisGetOk = false →
      getRegionRates env region tenant =
        .ok (⟨1, "Emergency fallback rate due to database error",
          "error_fallback"⟩, env)) ∧
    (env.redisGetOk = true → env.sqlOk = false →
      regionCacheFresh env tenant region = none →
      getRegionRates env region tenant =
        .ok (⟨1, "Emergency fallback rate due to database error",
          "error_fallback"⟩, env)) ∧
    (∀ row : RegionRow, env.redisGetOk = true → env.redisSetOk = false →
      env.sqlOk = true →
      regionCacheFresh env tenant region = none →
      env.db.regionRow tenant (upcase region) = some row →
      getRegionRates env region tenant =
        .ok (⟨1, "Emergency fallback rate due to database error",
          "error_fallback"⟩, env)) := by
  refine ⟨?_, ?_, ?_, ?_, ?_, ?_, ?_, ?_⟩
  · cases h : getRegionRatesTry env region tenant with
    | error e =>
      cases e
      exact ⟨_, getRegionRates_of_try_err env region tenant ht h⟩
    | ok v => exact ⟨_, getRegionRates_of_try_ok env region tenant v ht h⟩
  · intro d hg hc
    exact getRegionRates_of_try_ok env region tenant _ ht
      (getRegionRatesTry_cached env region tenant d hg hc)
  · intro row hg hs hq hc hrow
    exact ⟨_, getRegionRates_of_try_ok env region tenant _ ht
      (getRegionRatesTry_stored env region tenant row hg hs hq hc hrow)⟩
  · intro row hg hq hc hrow hdef
    exact getRegionRates_of_try_ok env region tenant _ ht
      (getRegionRatesTry_default env region tenant row hg hq hc hrow hdef)
  · intro hg hq hc hrow hdef
    exact getRegionRates_of_try_ok env region tenant _ ht
      (getRegionRatesTry_const env region tenant hg hq hc hrow hdef)
  · intro hg
    exact getRegionRates_of_try_err env region tenant ht
      (getRegionRatesTry_redisDown env region tenant hg)
  · intro hg hq hc
    exact getRegionRates_of_try_err env region tenant ht
      (getRegionRatesTry_sqlDown env region tenant hg hq hc)
  · intro row hg hs hq hc hrow
    exact getRegionRates_of_try_err env region tenant ht
      (getRegionRatesTry_setexDown env region tenant row hg hs hq hc hrow)

/-- Witness for C2: with tenant `t1` and an unknown region on the empty
environment, the resolver returns a value (the ultimate 1.0 fallback). -/
theorem getRegionRates_resolution_witness :
    ("t1" : String) ≠ "" ∧
    ∃ v, getRegionRates envEmpty "UNKNOWN_REGION" "t1" = .ok v :=
  ⟨by decide,
   (getRegionRates_resolution envEmpty "UNKNOWN_REGION" "t1" (by decide)).1⟩

/-- C8: resolving a tenant and region that hits the tenant-scoped
exact-match row writes the value to the cache under the key scoped to that
tenant and region with a one-hour (3600-second) expiry, leaving every
other cache key unchanged; a second resolution of the same pair before
expiry returns the identical multiplier with source `database_cached`; and
a resolution that does not hit the exact-match row (cached, default-row or
constant-fallback outcome) leaves the environment unchanged. -/
theorem getRegionRates_cache_population (env : Env) (region tenant : String)
    (ht : tenant ≠ "") (hg : env.redisGetOk = true) (hs : env.redisSetOk = true)
    (hq : env.sqlOk = true) :
    (∀ row : RegionRow, regionCacheFresh env tenant region = none →
      env.db.regionRow tenant (upcase region) = some row →
      ∃ r1 env1, getRegionRates env region tenant = .ok (r1, env1) ∧
        r1.taxMultiplier = row.taxMultiplier ∧
        r1.source = "database" ∧
        env1.regionCache tenant region =
          some (⟨r1.taxMultiplier, r1.description⟩, env.now + 3600) ∧
        (∀ t r, ¬(t = tenant ∧ r = region) →
          env1.regionCache t r = env.regionCache t r) ∧
        (∀ t2, t2 < env.now + 3600 →
          getRegionRates { env1 with now := t2 } region tenant =
            .ok (⟨r1.taxMultiplier, r1.description, "database_cached"⟩,
              { env1 with now := t2 }))) ∧
    (env.db.regionRow tenant (upcase region) = none →
      ∃ r1, getRegionRates env region tenant = .ok (r1, env)) := by
  constructor
  · intro row hc hrow
    set d : RegionData :=
      ⟨row.taxMultiplier, row.description.getD (regionDescDefault region)⟩ with hd
    refine ⟨⟨row.taxMultiplier, d.description, "database"⟩,
      regionCacheInsert env tenant region d,
      getRegionRates_of_try_ok env region tenant _ ht
        (getRegionRatesTry_stored env region tenant row hg hs hq hc hrow),
      rfl, rfl, ?_, ?_, ?_⟩
    · simp [regionCacheInsert]
    · intro t r hne
      simp [regionCacheInsert, hne]
    · intro t2 h2
      have hg2 : ({ regionCacheInsert env tenant region d with now := t2 }
          : Env).redisGetOk = true := by
        simpa [regionCacheInsert] using hg
      have hc2 : regionCacheFresh { regionCacheInsert env tenant region d with now := t2 }
          tenant region = some d := by
        simp [regionCacheFresh, regionCacheInsert, h2]
      exact getRegionRates_of_try_ok _ region tenant _ ht
        (getRegionRatesTry_cached _ region tenant d hg2 hc2)
  · intro hrow
    cases hc : regionCacheFresh env tenant region with
    | some d =>
      exact ⟨_, getRegionRates_of_try_ok env region tenant _ ht
        (getRegionRatesTry_cached env region tenant d hg hc)⟩
    | none =>
      cases hdef : env.db.regionDefault tenant with
      | some row =>
        exact ⟨_, getRegionRates_of_try_ok env region tenant _ ht
          (getRegionRatesTry_default env region tenant row hg hq hc hrow hdef)⟩
      | none =>
        exact ⟨_, getRegionRates_of_try_ok env region tenant _ ht
          (getRegionRatesTry_const env region tenant hg hq hc hrow hdef)⟩

/-- A tenant-scoped exact-match region row used by the cache witness. -/
def rowNG : RegionRow := ⟨1.5, some "Lagos VAT uplift"⟩

/-- An environment holding exactly one region row, for tenant `t1` and
region code `NG`. -/
def envOneRow : Env :=
  { envEmpty with db :=
    { envEmpty.db with regionRow := fun t c =>
        if t = "t1" ∧ c = "NG" then some rowNG else none } }

/-- Witness for C8 at the one-row environment: the first resolution stores
to the cache and a resolution at time 1800 is served from it. -/
theorem getRegionRates_cache_population_witness :
    ("t1" : String) ≠ "" ∧ envOneRow.redisGetOk = true ∧
    regionCacheFresh envOneRow "t1" "NG" = none ∧
    envOneRow.db.regionRow "t1" (upcase "NG") = some rowNG ∧
    ∃ r1 env1, getRegionRates envOneRow "NG" "t1" = .ok (r1, env1) ∧
      r1.taxMultiplier = rowNG.taxMultiplier ∧ r1.source = "database" ∧
      env1.regionCache "t1" "NG" =
        some (⟨r1.taxMultiplier, r1.description⟩, envOneRow.now + 3600) ∧
      getRegionRates { env1 with now := 1800 } "NG" "t1" =
        .ok (⟨r1.taxMultiplier, r1.description, "database_cached"⟩,
          { env1 with now := 1800 }) := by
  have hrow : envOneRow.db.regionRow "t1" (upcase "NG") = some rowNG :=
    of_decide_eq_true (by with_unfolding_all rfl)
  have hc : regionCacheFresh envOneRow "t1" "NG" = none := rfl
  obtain ⟨r1, env1, ha, hb, hcs, hd, _, hf⟩ :=
    (getRegionRates_cache_population envOneRow "NG" "t1"
      (by decide) rfl rfl rfl).1 rowNG hc hrow
  exact ⟨by decide, rfl, hc, hrow,
    r1, env1, ha, hb, hcs, hd, hf 1800 (by norm_num)⟩

end TaxAndFeeClaims3

section CallRouter

/-- The Cell Bus registry: a mapping from cell id (`sector/name`) to the
registered handler, which receives the action name and the JSON payload
and either returns a result or throws. -/
structure CellBus where
  registry : String → Option (String → String → Except String String)

/-- Modelled from the spec: the CellBus implementation
(`cell-sdk/loader/cell-bus`) is not part of src/ — only its caller, the
cells API route, is.  Per the spec's router contract, `call` fails with a
NotFound error when no handler is registered for the destination, and
otherwise invokes the handler, propagating the handler's own failure. -/
def CellBus.call (bus : CellBus) (cellId action payload : String) :
    Except String String :=
  match bus.registry cellId with
  | none => .error ("NotFound: no handler registered for " ++ cellId)
  | some h => h action payload

/-- The JSON body of a cells API route response. -/
inductive ResponseBody where
  | result (v : String)
  | invalidPath (error : String)
  | actionFailed (error message : String)
deriving Repr, DecidableEq

/-- A `NextResponse.json` value: HTTP status and body. -/
structure RouteResponse where
  status : ℕ
  body : ResponseBody
deriving Repr, DecidableEq

/-- The POST handler of the cells API route (src/unnamed/part_002, lines
6-48): a malformed path (missing segments or third segment not `actions`)
yields a 400; otherwise the request is dispatched through
`cellBus.call(cellId, action, payload)` and any thrown error — including
the router's own NotFound — is caught and wrapped in a 500 response with a
structured `{error, message}` body.  A null `cellPath` is modelled by the
empty list (caught by the length check). -/
def POST (bus : CellBus) (cellPath : List String) (payload : String) :
    RouteResponse :=
  if cellPath.length < 4 ∨ cellPath.get? 2 ≠ some "actions" then
    { status := 400,
      body := .invalidPath
        "Invalid cell path. Expected: /api/cells/sector/name/actions/action" }
  else
    let cellId := (cellPath.get? 0).getD "" ++ "/" ++ (cellPath.get? 1).getD ""
    match bus.call cellId ((cellPath.get? 3).getD "") payload with
    | .ok v => { status := 200, body := .result v }
    | .error e => { status := 500, body := .actionFailed "Cell action failed" e }

/-- A bus with no registered handlers. -/
def emptyBus : CellBus := ⟨fun _ => none⟩

/-- C7 (counterexample): invoking an unregistered destination returns
status 500, not a 4xx-class response. -/
theorem post_unregistered_counterexample :
    (POST emptyBus ["inventory", "TaxAndFee", "actions", "calculate"] "p").status = 500 ∧
    ¬((POST emptyBus ["inventory", "TaxAndFee", "actions", "calculate"] "p").status < 500 ∧
      400 ≤ (POST emptyBus ["inventory", "TaxAndFee", "actions", "calculate"] "p").status) := by
  constructor
  · rfl
  · decide

/-- C7 (amended): invoking an unregistered destination does not crash the
router: it returns a structured `Cell action failed` error response with
status 500 carrying the NotFound message; a failure thrown inside a
registered handler is likewise caught and wrapped in a structured 500
response; a successful handler result is returned with status 200. -/
theorem post_error_wrapping (bus : CellBus) (sector name action payload : String) :
    (bus.registry (sector ++ "/" ++ name) = none →
      POST bus [sector, name, "actions", action] payload =
        { status := 500, body := .actionFailed "Cell action failed"
            ("NotFound: no handler registered for " ++ (sector ++ "/" ++ name)) }) ∧
    (∀ h e, bus.registry (sector ++ "/" ++ name) = some h →
      h action payload = .error e →
      POST bus [sector, name, "actions", action] payload =
        { status := 500, body := .actionFailed "Cell action failed" e }) ∧
    (∀ h v, bus.registry (sector ++ "/" ++ name) = some h →
      h action payload = .ok v →
      POST bus [sector, name, "actions", action] payload =
        { status := 200, body := .result v }) := by
  have hcond : ¬(([sector, name, "actions", action] : List String).length < 4 ∨
      ([sector, name, "actions", action] : List String).get? 2 ≠ some "actions") := by
    simp
  refine ⟨?_, ?_, ?_⟩
  · intro hr
    unfold POST
    rw [if_neg hcond]
    simp [CellBus.call, hr]
  · intro h e hr he
    unfold POST
    rw [if_neg hcond]
    simp [CellBus.call, hr, he]
  · intro h v hr hv
    unfold POST
    rw [if_neg hcond]
    simp [CellBus.call, hr, hv]

/-- A bus with a single handler that always throws. -/
def failingBus : CellBus :=
  ⟨fun cellId => if cellId = "ecommerce/B2BAccessControl" then
      some (fun _ _ => .error "boom") else none⟩

/-- Witness for the amended C7: the NotFound wrapping on the empty bus and
the handler-failure wrapping on a bus whose handler throws. -/
theorem post_error_wrapping_witness :
    (emptyBus.registry ("inventory" ++ "/" ++ "TaxAndFee") = none) ∧
    POST emptyBus ["inventory", "TaxAndFee", "actions", "calculate"] "p" =
      { status := 500, body := .actionFailed "Cell action failed"
          ("NotFound: no handler registered for " ++ ("inventory" ++ "/" ++ "TaxAndFee")) } ∧
    POST failingBus ["ecommerce", "B2BAccessControl", "actions", "createB2BGroup"] "p" =
      { status := 500, body := .actionFailed "Cell action failed" "boom" } := by
  refine ⟨rfl, (post_error_wrapping emptyBus "inventory" "TaxAndFee" "calculate" "p").1 rfl, ?_⟩
  exact (post_error_wrapping failingBus "ecommerce" "B2BAccessControl"
    "createB2BGroup" "p").2.1 (fun _ _ => .error "boom") "boom" rfl rfl

end CallRouter

section B2BAccessControl

/-- The `access_type` of a `b2b_category_access_rules` row, constrained by
the cell's `CategoryAccessRuleSchema` to `allow`, `deny` or
`request_approval`. -/
inductive AccessType where
  | allow
  | deny
  | requestApproval
deriving Repr, DecidableEq

/-- An access rule row as consumed by `checkUserCategoryAccess`: its
priority, creation time, access type, and the derived `rule_type` label
(`user`, `group` or `global`). -/
structure AccessRule where
  priority : ℤ
  createdAt : ℕ
  accessType : AccessType
  ruleType : String
deriving Repr, DecidableEq

/-- `CategoryAccessResult` (B2BAccessControl server.ts lines 188-194). -/
structure CategoryAccessResult where
  hasAccess : Bool
  restrictionLevel : String
  restrictionReason : Option String
  allowedActions : List String
  requiredApprovals : List String
deriving Repr, DecidableEq

/-- `checkUserCategoryAccess` (server.ts lines 713-802) as a function of
the applicable rule rows, in the order returned by its SQL query
(`ORDER BY car.priority DESC, car.created_at ASC`): no rules defaults to
full access; otherwise the first row decides via the `access_type`
switch. -/
def checkUserCategoryAccess (rules : List AccessRule) : CategoryAccessResult :=
  match rules with
  | [] =>
    ⟨true, "none", none,
     ["view_product", "view_price", "add_to_cart", "purchase"], []⟩
  | r :: _ =>
    match r.accessType with
    | .allow =>
      ⟨true, "none", none,
       ["view_product", "view_price", "add_to_cart", "purchase"], []⟩
    | .deny =>
      ⟨false, "full",
       some ("Category access denied by " ++ r.ruleType ++ " rule"), [], []⟩
    | .requestApproval =>
      ⟨true, "partial", some "Purchase requires approval for this category",
       ["view_product", "view_price"], ["purchase_approval"]⟩

/-- The SQL result order of the rules query: higher priority first, ties
by earlier creation. -/
def ruleOrder (a b : AccessRule) : Prop :=
  b.priority < a.priority ∨ (a.priority = b.priority ∧ a.createdAt ≤ b.createdAt)

/-- C9: the access decision is made by the single highest-priority
matching rule, ties broken by earliest creation: an allow rule grants all
four actions with restriction level `none`; a deny rule refuses access
with restriction level `full` and no actions; a request-approval rule
grants the two view actions with restriction level `partial` and a
required purchase approval; with no matching rules, access is granted
with restriction level `none` and all actions allowed. -/
theorem checkUserCategoryAccess_spec (rules : List AccessRule)
    (hs : rules.Pairwise ruleOrder) :
    (rules = [] → checkUserCategoryAccess rules =
      ⟨true, "none", none,
       ["view_product", "view_price", "add_to_cart", "purchase"], []⟩) ∧
    (∀ r rest, rules = r :: rest →
      (∀ q ∈ rules, q.priority ≤ r.priority ∧
        (q.priority = r.priority → r.createdAt ≤ q.createdAt)) ∧
      (r.accessType = .allow → checkUserCategoryAccess rules =
        ⟨true, "none", none,
         ["view_product", "view_price", "add_to_cart", "purchase"], []⟩) ∧
      (r.accessType = .deny → checkUserCategoryAccess rules =
        ⟨false, "full",
         some ("Category access denied by " ++ r.ruleType ++ " rule"), [], []⟩) ∧
      (r.accessType = .requestApproval → checkUserCategoryAccess rules =
        ⟨true, "partial", some "Purchase requires approval for this category",
         ["view_product", "view_price"], ["purchase_approval"]⟩)) := by
  constructor
  · intro h
    subst h
    rfl
  · intro r rest hr
    subst hr
    refine ⟨?_, ?_, ?_, ?_⟩
    · intro q hq
      rcases List.mem_cons.1 hq with h | h
      · subst h
        exact ⟨le_refl _, fun _ => le_refl _⟩
      · rcases (List.pairwise_cons.1 hs).1 q h with h1 | ⟨h1, h2⟩
        · exact ⟨le_of_lt h1, fun he => absurd he (ne_of_lt h1)⟩
        · exact ⟨le_of_eq h1.symm, fun _ => h2⟩
    · intro ha
      simp [checkUserCategoryAccess, ha]
    · intro ha
      simp [checkUserCategoryAccess, ha]
    · intro ha
      simp [checkUserCategoryAccess, ha]

/-- A single deny rule used by the access-control witness. -/
def demoRule : AccessRule := ⟨10, 5, .deny, "user"⟩

/-- Witness for C9: a singleton deny rule refuses access with restriction
level `full`. -/
theorem checkUserCategoryAccess_spec_witness :
    ([demoRule].Pairwise ruleOrder) ∧
    checkUserCategoryAccess [demoRule] =
      ⟨false, "full", some "Category access denied by user rule", [], []⟩ := by
  have hp : [demoRule].Pairwise ruleOrder := List.pairwise_singleton _ _
  have h := ((checkUserCategoryAccess_spec [demoRule] hp).2 demoRule [] rfl).2.2.1 rfl
  refine ⟨hp, ?_⟩
  rw [h]
  rfl

/-- A row of `b2b_group_memberships`; `payload` stands for all the data
columns the revoke update does not touch. -/
structure Membership where
  tenantId : String
  userId : String
  groupId : String
  membershipStatus : String
  updatedAt : ℕ
  payload : String
deriving Repr, DecidableEq

/-- Environment of a `removeUserFromB2BGroup` call: the membership table,
the clock (`CURRENT_TIMESTAMP`), the authenticated user, the permission
oracle reached through the Cell Gateway, and the tenant id that
`getSecureTenantId` resolves. -/
structure B2BEnv where
  memberships : List Membership
  now : ℕ
  currentUser : Option String
  perm : String → String → String → Bool
  secureTenant : String

/-- Parameters of `removeUserFromB2BGroup`. -/
structure RemoveParams where
  userId : String
  groupId : String
  tenantId : Option String
deriving Repr, DecidableEq

/-- The result shape `{success, message, error?}`. -/
structure ActionResult where
  success : Bool
  message : String
  error : Option String
deriving Repr, DecidableEq

/-- The WHERE clause of the revoke update:
`tenant_id = $1 AND user_id = $2 AND group_id = $3`. -/
def membershipMatches (tenant user group : String) (m : Membership) : Bool :=
  decide (m.tenantId = tenant ∧ m.userId = user ∧ m.groupId = group)

/-- The `UPDATE b2b_group_memberships SET membership_status = 'revoked',
updated_at = CURRENT_TIMESTAMP WHERE ...` statement: the updated table and
the affected row count. -/
def runRevokeUpdate (rows : List Membership) (tenant user group : String)
    (now : ℕ) : List Membership × ℕ :=
  (rows.map (fun m =>
    if membershipMatches tenant user group m then
      { m with membershipStatus := "revoked", updatedAt := now }
    else m),
   (rows.filter (membershipMatches tenant user group)).length)

/-- `b2bAccessControlCell.removeUserFromB2BGroup` (server.ts lines
860-899): authentication, then the `b2b.memberships.delete` permission
check through the Cell Gateway, then the revoke update; a zero row count
yields the not-found error.  Returns the result object and the membership
table after the call. -/
def removeUserFromB2BGroup (env : B2BEnv) (params : RemoveParams) :
    ActionResult × List Membership :=
  let tenant := params.tenantId.getD env.secureTenant
  match env.currentUser with
  | none => (⟨false, "", some "Authentication required"⟩, env.memberships)
  | some uid =>
    if env.perm uid tenant "b2b.memberships.delete" = false then
      (⟨false, "",
        some "Insufficient permissions to remove users from B2B groups"⟩,
       env.memberships)
    else
      let upd := runRevokeUpdate env.memberships tenant params.userId
        params.groupId env.now
      if upd.2 = 0 then
        (⟨false, "", some "Membership not found or already revoked"⟩, upd.1)
      else
        (⟨true, "User successfully removed from B2B group", none⟩, upd.1)

/-- Mapping a conditional rewrite over a list on which the condition never
holds is the identity. -/
theorem map_if_id {α : Type} (p : α → Bool) (f : α → α) (l : List α)
    (h : ∀ a ∈ l, p a = false) :
    l.map (fun a => if p a then f a else a) = l := by
  induction l with
  | nil => rfl
  | cons a t ih =>
    have ha : p a = false := h a (List.mem_cons_self a t)
    have ht : ∀ b ∈ t, p b = false := fun b hb => h b (List.mem_cons_of_mem a hb)
    simp [ha, ih ht]

/-- C10: `removeUserFromB2BGroup` never deletes a membership row — the
table keeps its length; on success, each row matching the tenant, user and
group has exactly its `membership_status` set to `revoked` and its
`updated_at` set to the current time, every other field and every other
row being unchanged; and when no row matches, the call reports failure and
leaves the table entirely unchanged. -/
theorem removeUserFromB2BGroup_frame (env : B2BEnv) (params : RemoveParams) :
    (removeUserFromB2BGroup env params).2.length = env.memberships.length ∧
    ((removeUserFromB2BGroup env params).1.success = true →
      ∀ i (hi : i < env.memberships.length)
        (hi2 : i < (removeUserFromB2BGroup env params).2.length),
        (membershipMatches (params.tenantId.getD env.secureTenant) params.userId
            params.groupId (env.memberships.get ⟨i, hi⟩) = true →
          (removeUserFromB2BGroup env params).2.get ⟨i, hi2⟩ =
            { env.memberships.get ⟨i, hi⟩ with
                membershipStatus := "revoked", updatedAt := env.now }) ∧
        (membershipMatches (params.tenantId.getD env.secureTenant) params.userId
            params.groupId (env.memberships.get ⟨i, hi⟩) = false →
          (removeUserFromB2BGroup env params).2.get ⟨i, hi2⟩ =
            env.memberships.get ⟨i, hi⟩)) ∧
    ((∀ m ∈ env.memberships,
        membershipMatches (params.tenantId.getD env.secureTenant) params.userId
          params.groupId m = false) →
      (removeUserFromB2BGroup env params).1.success = false ∧
      (removeUserFromB2BGroup env params).2 = env.memberships) := by
  cases hcu : env.currentUser with
  | none =>
    have hred : removeUserFromB2BGroup env params =
        (⟨false, "", some "Authentication required"⟩, env.memberships) := by
      simp [removeUserFromB2BGroup, hcu]
    rw [hred]
    refine ⟨rfl, ?_, fun _ => ⟨rfl, rfl⟩⟩
    intro hsucc
    simp at hsucc
  | some uid =>
    by_cases hperm : env.perm uid (params.tenantId.getD env.secureTenant)
        "b2b.memberships.delete" = false
    · have hred : removeUserFromB2BGroup env params =
          (⟨false, "",
            some "Insufficient permissions to remove users from B2B groups"⟩,
           env.memberships) := by
        simp [removeUserFromB2BGroup, hcu, hperm]
      rw [hred]
      refine ⟨rfl, ?_, fun _ => ⟨rfl, rfl⟩⟩
      intro hsucc
      simp at hsucc
    · by_cases hcount : (runRevokeUpdate env.memberships
          (params.tenantId.getD env.secureTenant) params.userId params.groupId
          env.now).2 = 0
      · have hred : removeUserFromB2BGroup env params =
            (⟨false, "", some "Membership not found or already revoked"⟩,
             (runRevokeUpdate env.memberships
               (params.tenantId.getD env.secureTenant) params.userId
               params.groupId env.now).1) := by
          simp only [removeUserFromB2BGroup, hcu]
          rw [if_neg hperm, if_pos hcount]
        rw [hred]
        refine ⟨by simp [runRevokeUpdate], ?_, ?_⟩
        · intro hsucc
          simp at hsucc
        · intro hall
          exact ⟨rfl, map_if_id _ _ _ hall⟩
      · have hred : removeUserFromB2BGroup env params =
            (⟨true, "User successfully removed from B2B group", none⟩,
             (runRevokeUpdate env.memberships
               (params.tenantId.getD env.secureTenant) params.userId
               params.groupId env.now).1) := by
          simp only [removeUserFromB2BGroup, hcu]
          rw [if_neg hperm, if_neg hcount]
        rw [hred]
        refine ⟨by simp [runRevokeUpdate], ?_, ?_⟩
        · intro _ i hi hi2
          simp only [List.get_eq_getElem]
          constructor
          · intro hm
            simp [runRevokeUpdate, List.getElem_map, hm]
          · intro hm
            simp [runRevokeUpdate, List.getElem_map, hm]
        · intro hall
          have hnil : env.memberships.filter
              (membershipMatches (params.tenantId.getD env.secureTenant)
                params.userId params.groupId) = [] := by
            rw [List.filter_eq_nil_iff]
            intro a ha
            simp [hall a ha]
          exact absurd (by simp [runRevokeUpdate, hnil]) hcount

/-- A one-row membership table with an authenticated, authorized caller. -/
def envB2B : B2BEnv where
  memberships := [⟨"t1", "u1", "g1", "active", 0, "member-data"⟩]
  now := 7
  currentUser := some "admin"
  perm := fun _ _ _ => true
  secureTenant := "t1"

/-- Parameters removing user `u1` from group `g1` under the resolved
tenant. -/
def removeDemo : RemoveParams := ⟨"u1", "g1", none⟩

/-- Witness for C10: on the one-row table the call succeeds, keeps the
table length, and rewrites only the status and timestamp of the row. -/
theorem removeUserFromB2BGroup_frame_witness :
    (removeUserFromB2BGroup envB2B removeDemo).2.length =
      envB2B.memberships.length ∧
    (removeUserFromB2BGroup envB2B removeDemo).1.success = true ∧
    (removeUserFromB2BGroup envB2B removeDemo).2.get? 0 =
      some ⟨"t1", "u1", "g1", "revoked", 7, "member-data"⟩ := by
  have h := removeUserFromB2BGroup_frame envB2B removeDemo
  have hs : (removeUserFromB2BGroup envB2B removeDemo).1.success = true := by
    decide
  have h0 : (0 : ℕ) < envB2B.memberships.length := by decide
  have h02 : (0 : ℕ) < (removeUserFromB2BGroup envB2B removeDemo).2.length := by
    decide
  have hm : membershipMatches (removeDemo.tenantId.getD envB2B.secureTenant)
      removeDemo.userId removeDemo.groupId
      (envB2B.memberships.get ⟨0, h0⟩) = true := rfl
  have hrow := (h.2.1 hs 0 h0 h02).1 hm
  refine ⟨h.1, hs, ?_⟩
  rw [List.get?_eq_get h02, hrow]
  rfl

end B2BAccessControl

end WebWaka
